import Mathlib

/-!
Verification of the core of cargo-bisect-rustc (src/main.rs) against its
natural-language specification.  Dates are modelled as integer day numbers
(days since 1970-01-01, via the civil-calendar conversion below); machine
strings are Lean strings; the external installer, repository accessor and
test process are modelled as oracle function parameters.  Fallible code is
modelled with Except; the unreachable branch of Config::from_args is a
distinguished result constructor.
-/

/-- Ternary probe verdict, from the least_satisfying module interface
(re-exported and consumed in src/main.rs). -/
inductive Satisfies where
  | Yes
  | No
  | Unknown
deriving DecidableEq, Repr

/-- Binary classification of one probe, from the toolchains module interface
consumed in src/main.rs. -/
inductive TestOutcome where
  | Baseline
  | Regressed
deriving DecidableEq, Repr

/-- Regression criteria, from enum RegressOn in src/main.rs. -/
inductive RegressOn where
  | ErrorStatus
  | SuccessStatus
  | IceAlone
  | NotIce
  | NonCleanError
deriving DecidableEq, Repr

/-- A search bound, from enum Bound in src/main.rs.  A date is a day number. -/
inductive Bound where
  | Commit (s : String)
  | Date (d : Int)
deriving DecidableEq, Repr

/-- A concrete installable toolchain specification, from the toolchains module
interface consumed in src/main.rs (host and std target set are fixed per
configuration and omitted). -/
inductive ToolchainSpec where
  | Nightly (date : Int)
  | Ci (commit : String) (alt : Bool)
deriving DecidableEq, Repr

/-- A commit, from struct Commit in src/main.rs (sha and authored day number;
the summary field plays no role in the verified logic). -/
structure Commit where
  sha : String
  date : Int
deriving DecidableEq, Repr

/-- Installer failure, from the InstallError type consumed by
install_and_test in src/main.rs: the NotFound case is handled specially by
the nightly scan, every other error is opaque. -/
inductive IErr where
  | NotFound
  | Other
deriving DecidableEq, Repr

/-- Structured rendering of the bail! diagnostics of src/main.rs.  Each
constructor corresponds to one bail/format string and carries exactly the
values that the format string names. -/
inductive BisectErr where
  | altNotSupported
  | futureStart (d : Int)
  | futureEnd (d : Int)
  | nightlyStartMustNotReproduce (t : ToolchainSpec)
  | couldNotFind (t : ToolchainSpec)
  | noNightlyBuilt
  | nightlyEndDoesNotReproduce (t : ToolchainSpec)
  | retention (start end_ : String)
  | endMismatch (expected got : String)
  | ciStartIncludesRegression (t : ToolchainSpec)
  | ciEndDoesNotReproduce (t : ToolchainSpec)
  | install (e : IErr)
deriving DecidableEq, Repr

/-- Day number of a civil date (days since 1970-01-01), standard civil
calendar conversion; used to give concrete values to the date constants of
src/main.rs. -/
def days_from_civil (y m d : Int) : Int :=
  let y2 : Int := if m ≤ 2 then y - 1 else y
  let era : Int := (if 0 ≤ y2 then y2 else y2 - 399) / 400
  let yoe : Int := y2 - era * 400
  let mp : Int := if 2 < m then m - 3 else m + 9
  let doy : Int := (153 * mp + 2) / 5 + d - 1
  let doe : Int := yoe * 365 + yoe / 4 - yoe / 100 + doy
  era * 146097 + doe - 719468

/-- The hard lower date limit of the nightly scan in bisect_nightlies:
before 2015-10-20 there are no -std packages. -/
def end_at_date : Int := days_from_civil 2015 10 20

/-- Decidable equality of Except values, for concrete evaluation of the
models below. -/
instance exceptDecEq {ε α : Type} [DecidableEq ε] [DecidableEq α] :
    DecidableEq (Except ε α) := fun x y =>
  match x, y with
  | Except.ok a, Except.ok b =>
      if h : a = b then isTrue (by rw [h]) else isFalse (by simp [h])
  | Except.ok _, Except.error _ => isFalse (by simp)
  | Except.error _, Except.ok _ => isFalse (by simp)
  | Except.error u, Except.error v =>
      if h : u = v then isTrue (by rw [h]) else isFalse (by simp [h])

/-- Character membership in a string (the semantics of str::contains with a
char pattern), over the character list. -/
def str_contains_char (s : String) (c : Char) : Bool :=
  s.data.contains c

/-- String prefix test (the semantics of str::starts_with), over the
character lists. -/
def str_starts_with (s pre : String) : Bool :=
  pre.data.isPrefixOf s.data

/-- Split a character list on the dash character, for the modelled date
parser. -/
def split_dash : List Char → List (List Char)
  | [] => [[]]
  | c :: rest =>
      if c = '-' then [] :: split_dash rest
      else
        match split_dash rest with
        | [] => [[c]]
        | g :: gs => (c :: g) :: gs

/-- Parse a non-empty all-digit character list into a number (accumulator
form); none on any non-digit. -/
def parse_digits_aux : List Char → Nat → Option Nat
  | [], acc => some acc
  | c :: rest, acc =>
      if 48 ≤ c.toNat ∧ c.toNat ≤ 57 then
        parse_digits_aux rest (acc * 10 + (c.toNat - 48))
      else none

/-- Parse a non-empty all-digit character list into a number. -/
def parse_digits : List Char → Option Nat
  | [] => none
  | c :: rest => parse_digits_aux (c :: rest) 0

/-- Substring occurrence on character lists (needle, haystack), the semantics
of str::contains with a string pattern as used in
default_outcome_of_output. -/
def contains_sub : List Char → List Char → Bool
  | needle, [] => needle.isEmpty
  | needle, c :: rest => needle.isPrefixOf (c :: rest) || contains_sub needle rest

/-- String containment: haystack contains needle as a contiguous substring. -/
def string_contains (hay needle : String) : Bool :=
  contains_sub needle.data hay.data

/-- The apostrophe character, built numerically. -/
def apos : Char := Char.ofNat 39

/-- The first ICE marker literal of default_outcome_of_output. -/
def ice_marker : String := "error: internal compiler error"

/-- The second ICE marker literal of default_outcome_of_output: an
apostrophe followed by a stack-overflow message. -/
def overflow_marker : String := String.mk (apos :: " has overflowed its stack".data)

/-- The saw_ice predicate computed inside Config::default_outcome_of_output
in src/main.rs. -/
def saw_ice (stderr : String) : Bool :=
  string_contains stderr ice_marker || string_contains stderr overflow_marker

/-- Config::default_outcome_of_output from src/main.rs: classify one probe
from the regression mode, the exit-status success flag and the stderr text.
The match arms mirror the source match on (regress, status.success()). -/
def default_outcome_of_output (regress : RegressOn) (status_success : Bool)
    (stderr : String) : TestOutcome :=
  match regress, status_success with
  | RegressOn.ErrorStatus, true | RegressOn.SuccessStatus, false =>
      TestOutcome.Baseline
  | RegressOn.ErrorStatus, false | RegressOn.SuccessStatus, true
  | RegressOn.NonCleanError, true =>
      TestOutcome.Regressed
  | RegressOn.IceAlone, _ | RegressOn.NonCleanError, false =>
      if saw_ice stderr then TestOutcome.Regressed else TestOutcome.Baseline
  | RegressOn.NotIce, _ =>
      if saw_ice stderr then TestOutcome.Baseline else TestOutcome.Regressed

/-- The outcome table exactly as the specification states it, as a function
of the mode, the status-success flag and the saw_ice value; used to compare
the source classifier against the spec. -/
def spec_outcome (mode : RegressOn) (success : Bool) (ice : Bool) : TestOutcome :=
  match mode with
  | RegressOn.ErrorStatus =>
      if success then TestOutcome.Baseline else TestOutcome.Regressed
  | RegressOn.SuccessStatus =>
      if success then TestOutcome.Regressed else TestOutcome.Baseline
  | RegressOn.IceAlone =>
      if ice then TestOutcome.Regressed else TestOutcome.Baseline
  | RegressOn.NotIce =>
      if ice then TestOutcome.Baseline else TestOutcome.Regressed
  | RegressOn.NonCleanError =>
      if success then TestOutcome.Regressed
      else if ice then TestOutcome.Regressed else TestOutcome.Baseline

/-- Modelled from the spec: the function least_satisfying lives in the
least_satisfying module, which is not under src (only its caller
Config::bisect_to_regression is).  Per the spec contract it maintains a
half-open candidate interval and returns the least index probed to Yes
consistent with the observed verdicts; the first argument is recursion fuel
(the initial interval length suffices, each step at least halves or shrinks
the interval).  The Unknown-retry refinement of the spec is not modelled:
the claims about the bisector quantify over conclusive predicates only, and
an Unknown here conservatively narrows from the left like a No. -/
def lsgo (p : Nat → Satisfies) : Nat → Nat → Nat → Nat
  | 0, lo, _ => lo
  | fuel + 1, lo, hi =>
      if lo < hi then
        match p (lo + (hi - lo) / 2) with
        | Satisfies.Yes => lsgo p fuel lo (lo + (hi - lo) / 2)
        | Satisfies.No => lsgo p fuel (lo + (hi - lo) / 2 + 1) hi
        | Satisfies.Unknown => lsgo p fuel (lo + (hi - lo) / 2 + 1) hi
      else lo

/-- Modelled from the spec: entry point of the ternary bisector over a
sequence of length n with index predicate p. -/
def least_satisfying (n : Nat) (p : Nat → Satisfies) : Nat :=
  lsgo p n 0 n

/-- The unwrap_or(Satisfies::Unknown) adapter of Config::bisect_to_regression
in src/main.rs: an installer error counts as an Unknown verdict. -/
def install_result_to_satisfies (r : Except IErr Satisfies) : Satisfies :=
  match r with
  | Except.ok s => s
  | Except.error _ => Satisfies.Unknown

/-- Config::bisect_to_regression from src/main.rs: run the ternary bisector
over the toolchain sequence, probing with install_and_test and mapping
installer errors to Unknown. -/
def bisect_to_regression (ts : List ToolchainSpec)
    (probe : ToolchainSpec → Except IErr Satisfies) : Nat :=
  least_satisfying ts.length (fun i =>
    match ts[i]? with
    | some t => install_result_to_satisfies (probe t)
    | none => Satisfies.Unknown)

/-- The jump length computed inside NightlyFinderIter::next in src/main.rs,
as a function of the elapsed distance start_date - current_date in days. -/
def stride (dist : Int) : Int :=
  if dist < 7 then 2
  else if dist < 49 then 7
  else 14

/-- The stride schedule exactly as claim C7 states it: 2 days while d < 7,
7 days while 7 ≤ d < 49, 14 days when 49 ≤ d. -/
def spec_stride (d : Int) : Int :=
  if d < 7 then 2
  else if 7 ≤ d ∧ d < 49 then 7
  else 14

/-- NightlyFinderIter::next from src/main.rs: step the current date backward
by the stride keyed on the distance from the start date. -/
def nightly_finder_next (start_date current_date : Int) : Int :=
  current_date - stride (start_date - current_date)

/-- The date produced by the n-th call of NightlyFinderIter::next when the
iterator was created at start_date (index 0 is the start itself, before any
call). -/
def nightly_iter_dates (start_date : Int) : Nat → Int
  | 0 => start_date
  | n + 1 => nightly_finder_next start_date (nightly_iter_dates start_date n)

/-- The first n offsets (days before start) yielded by NightlyFinderIter. -/
def nightly_iter_offsets (start_date : Int) (n : Nat) : List Int :=
  (List.range n).map (fun k => start_date - nightly_iter_dates start_date (k + 1))

/-- get_end_date from src/main.rs: an explicit end date, else the installed
default nightly if known, else today. -/
def get_end_date (end? : Option Bound) (default_nightly : Option Int)
    (today : Int) : Int :=
  match end? with
  | some (Bound.Date d) => d
  | _ =>
      match default_nightly with
      | some d => d
      | none => today

/-- get_start_date from src/main.rs: an explicit start date, else the end
date. -/
def get_start_date (start? end? : Option Bound) (default_nightly : Option Int)
    (today : Int) : Int :=
  match start? with
  | some (Bound.Date d) => d
  | _ => get_end_date end? default_nightly today

/-- The coarse-scan while loop of Config::bisect_nightlies in src/main.rs.
Arguments nightly_date, last_failure and iter_cur are the loop-mutable
variables (iter_cur is the current_date field of the NightlyFinderIter; the
iterator is created at the initial nightly_date, so its start_date field is
the start_date argument).  Returns the first_success option together with
the final last_failure.  A Yes probe under an explicit start bails; a
NotFound install error rolls the date back one day (bailing when the start
was explicit); any other install error propagates. -/
def scan_loop (probe : ToolchainSpec → Except IErr Satisfies)
    (start_date end_at : Int) (has_start : Bool)
    (nightly_date last_failure iter_cur : Int) :
    Except BisectErr (Option Int × Int) :=
  if _hguard : end_at < nightly_date then
    match probe (ToolchainSpec.Nightly nightly_date) with
    | Except.ok r =>
        if r = Satisfies.No then Except.ok (some nightly_date, last_failure)
        else if has_start then
          Except.error
            (BisectErr.nightlyStartMustNotReproduce (ToolchainSpec.Nightly nightly_date))
        else
          scan_loop probe start_date end_at has_start
            (nightly_finder_next start_date iter_cur) nightly_date
            (nightly_finder_next start_date iter_cur)
    | Except.error IErr.NotFound =>
        if has_start then
          Except.error (BisectErr.couldNotFind (ToolchainSpec.Nightly nightly_date))
        else
          scan_loop probe start_date end_at has_start
            (nightly_date - 1) last_failure iter_cur
    | Except.error e => Except.error (BisectErr.install e)
  else Except.ok (none, last_failure)
termination_by ((iter_cur - end_at).toNat, (nightly_date - end_at).toNat)
decreasing_by
  · have h2 : (2 : Int) ≤ stride (start_date - iter_cur) := by
      unfold stride
      split
      · omega
      · split <;> omega
    simp only [nightly_finder_next]
    by_cases hc : end_at < iter_cur
    · exact Prod.Lex.left _ _ (by omega)
    · have he : (iter_cur - stride (start_date - iter_cur) - end_at).toNat
          = (iter_cur - end_at).toNat := by omega
      rw [he]
      exact Prod.Lex.right _ (by omega)
  · exact Prod.Lex.right _ (by omega)

/-- toolchains_between from src/main.rs, restricted to the nightly/nightly
case the program exercises: one nightly toolchain per day from a to b
inclusive. -/
def toolchains_between (a b : Int) : List ToolchainSpec :=
  if a ≤ b then ToolchainSpec.Nightly a :: toolchains_between (a + 1) b
  else []
termination_by (b + 1 - a).toNat
decreasing_by omega

/-- Config::bisect_nightlies from src/main.rs.  The oracle probe stands for
install_and_test; default_nightly stands for Toolchain::default_nightly().
Note the source's end-date validation message prints nightly_date (the
start), so futureEnd carries the start date, mirroring the source. -/
def bisect_nightlies (today : Int) (probe : ToolchainSpec → Except IErr Satisfies)
    (alt : Bool) (start? end? : Option Bound) (default_nightly : Option Int) :
    Except BisectErr (List ToolchainSpec × Nat) :=
  if alt then Except.error BisectErr.altNotSupported
  else if start?.isSome = true
      ∧ today < get_start_date start? end? default_nightly today then
    Except.error (BisectErr.futureStart (get_start_date start? end? default_nightly today))
  else if today < get_end_date end? default_nightly today then
    Except.error (BisectErr.futureEnd (get_start_date start? end? default_nightly today))
  else
    match scan_loop probe (get_start_date start? end? default_nightly today)
        end_at_date start?.isSome
        (get_start_date start? end? default_nightly today)
        (get_end_date end? default_nightly today)
        (get_start_date start? end? default_nightly today) with
    | Except.error e => Except.error e
    | Except.ok (none, _) => Except.error BisectErr.noNightlyBuilt
    | Except.ok (some fs, lf) =>
        match probe (ToolchainSpec.Nightly lf) with
        | Except.error e => Except.error (BisectErr.install e)
        | Except.ok r =>
            if r = Satisfies.No then
              Except.error
                (BisectErr.nightlyEndDoesNotReproduce (ToolchainSpec.Nightly lf))
            else
              Except.ok (toolchains_between fs lf,
                bisect_to_regression (toolchains_between fs lf) probe)

/-- The last-commit endpoint check of Config::bisect_ci_in_commits in
src/main.rs: unless the requested end is origin/master, the retained list
must end in a commit whose sha starts with the requested end. -/
def ci_last_check (end_ : String) (commits : List Commit) : Except BisectErr Unit :=
  match commits.getLast? with
  | some c =>
      if end_ = "origin/master" then Except.ok ()
      else if str_starts_with c.sha end_ then Except.ok ()
      else Except.error (BisectErr.endMismatch end_ c.sha)
  | none => Except.ok ()

/-- The endpoint validation of Config::bisect_ci_in_commits in src/main.rs:
for a non-empty toolchain list, the first toolchain must not probe Yes and
the last must not probe No; install errors propagate. -/
def ci_validate_endpoints (probe : ToolchainSpec → Except IErr Satisfies) :
    List ToolchainSpec → Except BisectErr Unit
  | [] => Except.ok ()
  | t0 :: rest =>
      match probe t0 with
      | Except.error e => Except.error (BisectErr.install e)
      | Except.ok r0 =>
          if r0 = Satisfies.Yes then
            Except.error (BisectErr.ciStartIncludesRegression t0)
          else
            match probe ((t0 :: rest).getLast?.getD t0) with
            | Except.error e => Except.error (BisectErr.install e)
            | Except.ok r1 =>
                if r1 = Satisfies.No then
                  Except.error
                    (BisectErr.ciEndDoesNotReproduce ((t0 :: rest).getLast?.getD t0))
                else Except.ok ()

/-- Config::bisect_ci_in_commits from src/main.rs: retain the commits within
167 days of today, fail with the retention diagnostic when none remain,
check the last commit against the requested end, validate the endpoints by
probing, then run the ternary bisector. -/
def bisect_ci_in_commits (today : Int)
    (probe : ToolchainSpec → Except IErr Satisfies) (alt : Bool)
    (start end_ : String) (commits : List Commit) :
    Except BisectErr (List ToolchainSpec × Nat) :=
  if (commits.filter (fun c => today - c.date < 167)).isEmpty then
    Except.error (BisectErr.retention start end_)
  else
    match ci_last_check end_ (commits.filter (fun c => today - c.date < 167)) with
    | Except.error e => Except.error e
    | Except.ok _ =>
        match ci_validate_endpoints probe
            ((commits.filter (fun c => today - c.date < 167)).map
              (fun c => ToolchainSpec.Ci c.sha alt)) with
        | Except.error e => Except.error e
        | Except.ok _ =>
            Except.ok
              ((commits.filter (fun c => today - c.date < 167)).map
                  (fun c => ToolchainSpec.Ci c.sha alt),
                bisect_to_regression
                  ((commits.filter (fun c => today - c.date < 167)).map
                    (fun c => ToolchainSpec.Ci c.sha alt)) probe)

/-- The is_tag closure of fixup_bounds in src/main.rs: a commit-kind bound
whose string contains a dot. -/
def bound_is_tag : Option Bound → Bool
  | some (Bound.Commit c) => str_contains_char c '.'
  | _ => false

/-- The is_datelike closure of fixup_bounds in src/main.rs: absent, a date,
or a tag. -/
def bound_is_datelike (b : Option Bound) : Bool :=
  (match b with
   | none => true
   | some (Bound.Date _) => true
   | _ => false) || bound_is_tag b

/-- The per-bound fixup closure of fixup_bounds in src/main.rs: a tag bound
is rewritten to the authored date of its commit via the repository accessor
(oracle btd, for bound_to_date); everything else is untouched. -/
def fixup_one (btd : String → Except Unit Int) :
    Option Bound → Except Unit (Option Bound)
  | some (Bound.Commit tag) =>
      if bound_is_tag (some (Bound.Commit tag)) then
        (btd tag).map (fun d => some (Bound.Date d))
      else Except.ok (some (Bound.Commit tag))
  | b => Except.ok b

/-- fixup_bounds from src/main.rs: when both bounds are date-like, fix up
each bound in turn (propagating accessor failure); otherwise return both
bounds unchanged. -/
def fixup_bounds (btd : String → Except Unit Int) (start? end? : Option Bound) :
    Except Unit (Option Bound × Option Bound) :=
  if bound_is_datelike start? && bound_is_datelike end? then
    match fixup_one btd start? with
    | Except.error u => Except.error u
    | Except.ok s2 =>
        match fixup_one btd end? with
        | Except.error u => Except.error u
        | Except.ok e2 => Except.ok (s2, e2)
  else Except.ok (start?, end?)

/-- Result of the bound-classification portion of Config::from_args in
src/main.rs: a successful configuration, the mixed-bounds bail, a failed
date-to-commit conversion, or the unreachable!() panic. -/
inductive FAOutcome where
  | ok (start? end? : Option Bound) (is_commit : Bool)
  | mixedBounds (start? end? : Option Bound)
  | convError
  | panicked
deriving DecidableEq, Repr

/-- The is_commit classification match of Config::from_args in src/main.rs;
none encodes the mixed-bounds bail. -/
def compute_is_commit (start? end? : Option Bound) : Option (Option Bool) :=
  match start?, end? with
  | some (Bound.Commit _), some (Bound.Commit _) => some (some true)
  | none, some (Bound.Commit _) => some (some true)
  | some (Bound.Commit _), none => some (some true)
  | some (Bound.Date _), some (Bound.Date _) => some (some false)
  | none, some (Bound.Date _) => some (some false)
  | some (Bound.Date _), none => some (some false)
  | none, none => some none
  | _, _ => none

/-- The bound-classification portion of Config::from_args in src/main.rs
(filesystem setup omitted).  When is_commit is Some(false) and by_commit was
requested, both bounds are converted to commits via the oracle as_commit;
the match there covers only the (Some, Some) shape and the remaining shapes
hit unreachable!(). -/
def from_args_bounds (as_commit : Bound → Except Unit Bound)
    (start? end? : Option Bound) (by_commit : Bool) : FAOutcome :=
  match compute_is_commit start? end? with
  | none => FAOutcome.mixedBounds start? end?
  | some ic =>
      if ic = some false ∧ by_commit = true then
        match start?, end? with
        | some b1, some b2 =>
            match as_commit b1, as_commit b2 with
            | Except.ok c1, Except.ok c2 =>
                FAOutcome.ok (some c1) (some c2)
                  (by_commit || decide (ic = some true))
            | _, _ => FAOutcome.convError
        | _, _ => FAOutcome.panicked
      else FAOutcome.ok start? end? (by_commit || decide (ic = some true))

/-- Gregorian leap-year test, for the modelled date parser. -/
def is_leap (y : Nat) : Bool :=
  (y % 4 == 0) && (!(y % 100 == 0) || y % 400 == 0)

/-- Days in a month, for the modelled date parser. -/
def days_in_month (y m : Nat) : Nat :=
  if m = 2 then (if is_leap y then 29 else 28)
  else if m = 4 ∨ m = 6 ∨ m = 9 ∨ m = 11 then 30
  else 31

/-- Modelled from the spec: parse_to_utc_date lives in the toolchains
module, which is not under src (only its caller, the FromStr impl of Bound,
is).  Per the spec, an unannotated bound string is date-parsed in the
YYYY-MM-DD format: this model accepts strings of three dash-separated
numeric components of widths 4, 2 and 2 naming a valid calendar date, and
yields its day number. -/
def parse_to_utc_date (s : String) : Except Unit Int :=
  match split_dash s.data with
  | [ys, ms, ds] =>
      match parse_digits ys, parse_digits ms, parse_digits ds with
      | some y, some m, some d =>
          if ys.length = 4 ∧ ms.length = 2 ∧ ds.length = 2
              ∧ 1 ≤ m ∧ m ≤ 12 ∧ 1 ≤ d ∧ d ≤ days_in_month y m then
            Except.ok (days_from_civil (Int.ofNat y) (Int.ofNat m) (Int.ofNat d))
          else Except.error ()
      | _, _, _ => Except.error ()
  | _ => Except.error ()

/-- The FromStr impl of Bound in src/main.rs, whose error type is
Infallible (modelled as Empty): date-parse the string, and on failure fall
back to a commit bound holding the string verbatim. -/
def Bound.from_str (s : String) : Except Empty Bound :=
  match (parse_to_utc_date s).map Bound.Date with
  | Except.ok b => Except.ok b
  | Except.error _ => Except.ok (Bound.Commit s)

/-- check_bounds from src/main.rs.  The source matches on
start.as_ref().zip(end.as_ref()) with three guarded patterns; the match is
expanded here pattern by pattern.  The result is true exactly when the
source returns Ok. -/
def check_bounds (current : Int) (start? end? : Option Bound) : Bool :=
  match start?, end? with
  | some s, some e =>
      match s, e with
      | Bound.Date sd, Bound.Date ed =>
          if ed < sd then false
          else if current < sd then false
          else if current < ed then false
          else true
      | Bound.Date sd, Bound.Commit _ => if current < sd then false else true
      | Bound.Commit _, Bound.Date ed => if current < ed then false else true
      | Bound.Commit _, Bound.Commit _ => true
  | _, _ => true

/-- The acceptance predicate exactly as claim C3 states it: start ≤ end,
start ≤ today and end ≤ today, each conjunct ranging over the date bounds
that are supplied. -/
def claim_accepts_C3 (current : Int) (start? end? : Option Bound) : Bool :=
  (match start?, end? with
   | some (Bound.Date sd), some (Bound.Date ed) => decide (sd ≤ ed)
   | _, _ => true)
  && (match start? with
      | some (Bound.Date sd) => decide (sd ≤ current)
      | _ => true)
  && (match end? with
      | some (Bound.Date ed) => decide (ed ≤ current)
      | _ => true)

/-- The acceptance predicate check_bounds actually implements: the claimed
conjuncts are only enforced when both bounds are supplied; a pair with an
absent bound is always accepted. -/
def amended_accepts_C3 (current : Int) (start? end? : Option Bound) : Bool :=
  match start?, end? with
  | some s, some e =>
      (match s, e with
       | Bound.Date sd, Bound.Date ed => decide (sd ≤ ed)
       | _, _ => true)
      && (match s with
          | Bound.Date sd => decide (sd ≤ current)
          | _ => true)
      && (match e with
          | Bound.Date ed => decide (ed ≤ current)
          | _ => true)
  | _, _ => true

/-- One observable output of the reporting path of src/main.rs: the searched
range line, the extra probe of the last toolchain, the regression-not-found
message, the regression banner of Config::print_results, and the final
issue-tracker report of print_final_report. -/
inductive Ev where
  | SearchedLine
  | Reprobe
  | NotFoundMsg
  | Banner
  | FinalReport
deriving DecidableEq, Repr

/-- Default toolchain used to model the panicking indexings
toolchains[found] and toolchains.last().unwrap() of print_results (both are
in range for every BisectionResult the program constructs). -/
def dflt_toolchain : ToolchainSpec := ToolchainSpec.Nightly 0

/-- The last element of a toolchain list (default for the empty list). -/
def last_toolchain (ts : List ToolchainSpec) : ToolchainSpec :=
  ts.getLast?.getD dflt_toolchain

/-- Config::print_results from src/main.rs as the sequence of outputs it
emits.  When the found toolchain equals the last searched toolchain it is
probed once more (Reprobe); a verdict other than Yes prints the
regression-not-found message and returns early, otherwise the regression
banner is printed.  The reprobe argument is the verdict of that probe, with
an install error already collapsed to Unknown as in the source. -/
def print_results_events (searched : List ToolchainSpec) (found : Nat)
    (reprobe : Satisfies) : List Ev :=
  Ev.SearchedLine ::
    (if searched.getD found dflt_toolchain = last_toolchain searched then
      Ev.Reprobe ::
        (match reprobe with
         | Satisfies.Yes => [Ev.Banner]
         | Satisfies.No => [Ev.NotFoundMsg]
         | Satisfies.Unknown => [Ev.NotFoundMsg])
    else [Ev.Banner])

/-- The reporting tail of Config::bisect's nightly branch in src/main.rs,
once both bisection results are in hand: print_results on the nightly
result, then print_results on the CI result, then print_final_report —
unconditionally, whatever print_results did. -/
def bisect_nightly_tail_events (nightlySearched : List ToolchainSpec)
    (nightlyFound : Nat) (nightlyReprobe : Satisfies)
    (ciSearched : List ToolchainSpec) (ciFound : Nat) (ciReprobe : Satisfies) :
    List Ev :=
  print_results_events nightlySearched nightlyFound nightlyReprobe
    ++ print_results_events ciSearched ciFound ciReprobe
    ++ [Ev.FinalReport]

/-- Claim C1: Config::default_outcome_of_output is the pure function of
(mode, exit-status success, stderr) given by the specification table, with
saw_ice read from stderr. -/
theorem claim_C1 (mode : RegressOn) (success : Bool) (stderr : String) :
    default_outcome_of_output mode success stderr =
      spec_outcome mode success (saw_ice stderr) := by
  cases mode <;> cases success <;> cases h : saw_ice stderr <;>
    simp [default_outcome_of_output, spec_outcome, h]

/-- Interval lemma for the bisector: on a conclusive monotone predicate with
boundary k inside [lo, hi], enough fuel returns exactly k. -/
theorem lsgo_correct (p : Nat → Satisfies) (k : Nat) :
    ∀ (fuel lo hi : Nat), hi - lo ≤ fuel → lo ≤ k → k ≤ hi →
      (∀ i, lo ≤ i → i < hi →
        p i = if i < k then Satisfies.No else Satisfies.Yes) →
      lsgo p fuel lo hi = k := by
  intro fuel
  induction fuel with
  | zero =>
      intro lo hi h1 h2 h3 _
      simp only [lsgo]
      omega
  | succ n ih =>
      intro lo hi h1 h2 h3 hp
      by_cases hlh : lo < hi
      · have hm1 : lo ≤ lo + (hi - lo) / 2 := by omega
        have hm2 : lo + (hi - lo) / 2 < hi := by omega
        rcases Nat.lt_or_ge (lo + (hi - lo) / 2) k with hmk | hmk
        · have hpm : p (lo + (hi - lo) / 2) = Satisfies.No := by
            rw [hp _ hm1 hm2, if_pos hmk]
          simp only [lsgo, if_pos hlh, hpm]
          exact ih _ _ (by omega) (by omega) h3
            (fun i hi1 hi2 => hp i (by omega) hi2)
        · have hpm : p (lo + (hi - lo) / 2) = Satisfies.Yes := by
            rw [hp _ hm1 hm2, if_neg (by omega)]
          simp only [lsgo, if_pos hlh, hpm]
          exact ih _ _ (by omega) h2 (by omega)
            (fun i hi1 hi2 => hp i hi1 (by omega))
      · simp only [lsgo, if_neg hlh]
        omega

/-- Claim C2: for every non-empty toolchain sequence and every conclusive
monotone predicate with true boundary k inside the sequence, the ternary
bisector invoked by bisect_to_regression returns k. -/
theorem claim_C2 (ts : List ToolchainSpec)
    (probe : ToolchainSpec → Except IErr Satisfies) (k : Nat)
    (_hn : 1 ≤ ts.length) (hk : k < ts.length)
    (hp : ∀ i (h : i < ts.length),
      probe ts[i] = Except.ok (if i < k then Satisfies.No else Satisfies.Yes)) :
    bisect_to_regression ts probe = k := by
  unfold bisect_to_regression least_satisfying
  apply lsgo_correct
  · exact Nat.le_refl _
  · exact Nat.zero_le _
  · omega
  · intro i _ h2
    have hgl : ts[i]? = some ts[i] := List.getElem?_eq_getElem h2
    rw [hgl]
    simp only [install_result_to_satisfies, hp i h2]

/-- Witness for claim C2 at a concrete five-element sequence with boundary
index 3. -/
theorem claim_C2_witness :
    bisect_to_regression
      [ToolchainSpec.Nightly 0, ToolchainSpec.Nightly 1, ToolchainSpec.Nightly 2,
        ToolchainSpec.Nightly 3, ToolchainSpec.Nightly 4]
      (fun t =>
        match t with
        | ToolchainSpec.Nightly d =>
            Except.ok (if d < 3 then Satisfies.No else Satisfies.Yes)
        | ToolchainSpec.Ci _ _ => Except.ok Satisfies.Unknown) = 3 :=
  claim_C2 _ _ 3 (by decide) (by decide)
    (by
      intro i h
      simp only [List.length_cons, List.length_nil] at h
      interval_cases i <;> rfl)

/-- Counterexample to claim C3: with today = 0, an absent start and a future
end date (day 1), check_bounds accepts although the claimed formula demands
rejection (end ≤ today fails).  The source zips the two options, so a pair
with an absent bound skips every check. -/
theorem claim_C3_counterexample :
    check_bounds 0 none (some (Bound.Date 1)) = true
      ∧ claim_accepts_C3 0 none (some (Bound.Date 1)) = false := by
  constructor <;> rfl

/-- Claim C3 as amended: check_bounds enforces the claimed conjuncts only
when both bounds are supplied, and accepts unconditionally when either bound
is absent. -/
theorem claim_C3 (current : Int) (start? end? : Option Bound) :
    check_bounds current start? end? = amended_accepts_C3 current start? end? := by
  rcases start? with _ | s <;> rcases end? with _ | e
  · rfl
  · rfl
  · rfl
  · rcases s with cs | sd <;> rcases e with ce | ed <;>
      simp only [check_bounds, amended_accepts_C3] <;>
      (try split_ifs) <;> simp_all

/-- Counterexample to claim C4: a CI bisection whose found toolchain is the
last searched toolchain and whose re-probe verdict is No prints the
regression-not-found message, yet the orchestrator still emits the final
report afterwards (print_final_report is called unconditionally after
print_results in Config::bisect's nightly branch). -/
theorem claim_C4_counterexample :
    Ev.NotFoundMsg ∈
        bisect_nightly_tail_events [ToolchainSpec.Nightly 5] 0 Satisfies.Yes
          [ToolchainSpec.Ci "abc" false] 0 Satisfies.No
      ∧ Ev.FinalReport ∈
        bisect_nightly_tail_events [ToolchainSpec.Nightly 5] 0 Satisfies.Yes
          [ToolchainSpec.Ci "abc" false] 0 Satisfies.No := by
  constructor <;> decide

/-- Claim C4 as amended: whenever the found toolchain equals the last element
of the searched sequence, print_results re-probes it exactly once; if the
re-probe returns anything other than Yes it prints the regression-not-found
message and returns without emitting its regression banner — but in the
two-phase path the orchestrator still emits the final report afterwards. -/
theorem claim_C4 (searched : List ToolchainSpec) (found : Nat)
    (reprobe : Satisfies)
    (h : searched.getD found dflt_toolchain = last_toolchain searched) :
    (print_results_events searched found reprobe).count Ev.Reprobe = 1
      ∧ (reprobe ≠ Satisfies.Yes →
          Ev.NotFoundMsg ∈ print_results_events searched found reprobe
            ∧ Ev.Banner ∉ print_results_events searched found reprobe)
      ∧ (∀ ns nf nr, Ev.FinalReport ∈
          bisect_nightly_tail_events ns nf nr searched found reprobe) := by
  refine ⟨?_, ?_, ?_⟩
  · simp only [print_results_events, if_pos h]
    cases reprobe <;> rfl
  · intro hy
    simp only [print_results_events, if_pos h]
    cases reprobe
    · exact absurd rfl hy
    · simp
    · simp
  · intro ns nf nr
    simp [bisect_nightly_tail_events]

/-- Witness for the amended claim C4 at a concrete one-element CI result with
a failing re-probe. -/
theorem claim_C4_witness :
    Ev.NotFoundMsg ∈ print_results_events [ToolchainSpec.Ci "abc" false] 0 Satisfies.No
      ∧ Ev.Banner ∉ print_results_events [ToolchainSpec.Ci "abc" false] 0 Satisfies.No :=
  (claim_C4 [ToolchainSpec.Ci "abc" false] 0 Satisfies.No (by decide)).2.1
    (by decide)

/-- Claim C5: phase-two CI bisection retains exactly the commits within 167
days of today; when none remain it fails with the retention diagnostic
naming both requested endpoints, whatever the probe would have answered. -/
theorem claim_C5 (today : Int) (alt : Bool) (start end_ : String)
    (commits : List Commit) :
    (commits.filter (fun c => today - c.date < 167) = [] →
        ∀ probe, bisect_ci_in_commits today probe alt start end_ commits
          = Except.error (BisectErr.retention start end_))
      ∧ (∀ probe ts found,
          bisect_ci_in_commits today probe alt start end_ commits
              = Except.ok (ts, found) →
            ts = (commits.filter (fun c => today - c.date < 167)).map
              (fun c => ToolchainSpec.Ci c.sha alt)) := by
  constructor
  · intro h probe
    simp [bisect_ci_in_commits, h]
  · intro probe ts found h
    unfold bisect_ci_in_commits at h
    split at h
    · exact Except.noConfusion h
    · split at h
      · exact Except.noConfusion h
      · split at h
        · exact Except.noConfusion h
        · simp only [Except.ok.injEq, Prod.mk.injEq] at h
          exact h.1.symm

/-- Witness for claim C5: one commit, 200 days old, is dropped by the
retention filter and the run fails with the retention diagnostic. -/
theorem claim_C5_witness :
    bisect_ci_in_commits 200 (fun _ => Except.ok Satisfies.No) false
      "startsha" "endsha" [{ sha := "c1", date := 0 }]
      = Except.error (BisectErr.retention "startsha" "endsha") :=
  (claim_C5 200 false "startsha" "endsha" [{ sha := "c1", date := 0 }]).1
    (by decide) (fun _ => Except.ok Satisfies.No)

/-- Claim C6: endpoint validation by probing happens before the bisector
runs.  Phase one fails naming the end-of-range nightly when the right
endpoint probes No; phase two fails naming the first commit's toolchain
when it probes Yes and the last commit's toolchain when it probes No. -/
theorem claim_C6 :
    (∀ (today : Int) (probe : ToolchainSpec → Except IErr Satisfies)
        (start? end? : Option Bound) (dn : Option Int) (fs lf : Int),
        (start?.isSome = true → get_start_date start? end? dn today ≤ today) →
        get_end_date end? dn today ≤ today →
        scan_loop probe (get_start_date start? end? dn today) end_at_date
            start?.isSome (get_start_date start? end? dn today)
            (get_end_date end? dn today)
            (get_start_date start? end? dn today) = Except.ok (some fs, lf) →
        probe (ToolchainSpec.Nightly lf) = Except.ok Satisfies.No →
        bisect_nightlies today probe false start? end? dn =
          Except.error (BisectErr.nightlyEndDoesNotReproduce (ToolchainSpec.Nightly lf)))
      ∧ (∀ (today : Int) (probe : ToolchainSpec → Except IErr Satisfies)
          (alt : Bool) (start end_ : String) (commits : List Commit)
          (c0 : Commit) (crest : List Commit),
          commits.filter (fun c => today - c.date < 167) = c0 :: crest →
          ci_last_check end_ (c0 :: crest) = Except.ok () →
          probe (ToolchainSpec.Ci c0.sha alt) = Except.ok Satisfies.Yes →
          bisect_ci_in_commits today probe alt start end_ commits =
            Except.error
              (BisectErr.ciStartIncludesRegression (ToolchainSpec.Ci c0.sha alt)))
      ∧ (∀ (today : Int) (probe : ToolchainSpec → Except IErr Satisfies)
          (alt : Bool) (start end_ : String) (commits : List Commit)
          (c0 : Commit) (crest : List Commit) (r0 : Satisfies),
          commits.filter (fun c => today - c.date < 167) = c0 :: crest →
          ci_last_check end_ (c0 :: crest) = Except.ok () →
          probe (ToolchainSpec.Ci c0.sha alt) = Except.ok r0 →
          r0 ≠ Satisfies.Yes →
          probe (ToolchainSpec.Ci ((c0 :: crest).getLast?.getD c0).sha alt)
              = Except.ok Satisfies.No →
          bisect_ci_in_commits today probe alt start end_ commits =
            Except.error (BisectErr.ciEndDoesNotReproduce
              (ToolchainSpec.Ci ((c0 :: crest).getLast?.getD c0).sha alt))) := by
  refine ⟨?_, ?_, ?_⟩
  · intro today probe start? end? dn fs lf h1 h2 hscan hprobe
    have hc1 : ¬ (start?.isSome = true
        ∧ today < get_start_date start? end? dn today) := by
      rintro ⟨hs, hlt⟩
      have := h1 hs
      omega
    have hc2 : ¬ (today < get_end_date end? dn today) := by omega
    unfold bisect_nightlies
    rw [if_neg (by simp), if_neg hc1, if_neg hc2, hscan]
    simp only []
    rw [hprobe]
    simp
  · intro today probe alt start end_ commits c0 crest hkept hlast hp
    have hval : ci_validate_endpoints probe
        (ToolchainSpec.Ci c0.sha alt
          :: crest.map (fun c => ToolchainSpec.Ci c.sha alt))
        = Except.error
            (BisectErr.ciStartIncludesRegression (ToolchainSpec.Ci c0.sha alt)) := by
      simp only [ci_validate_endpoints, hp]
      rfl
    unfold bisect_ci_in_commits
    rw [hkept]
    simp only [List.isEmpty_cons, Bool.false_eq_true, if_false, hlast,
      List.map_cons, hval]
  · intro today probe alt start end_ commits c0 crest r0 hkept hlast hp0 hr0 hpl
    have hmap : ((ToolchainSpec.Ci c0.sha alt :: crest.map
          (fun c => ToolchainSpec.Ci c.sha alt)).getLast?).getD
          (ToolchainSpec.Ci c0.sha alt)
        = ToolchainSpec.Ci ((c0 :: crest).getLast?.getD c0).sha alt := by
      rw [show ToolchainSpec.Ci c0.sha alt :: crest.map
            (fun c => ToolchainSpec.Ci c.sha alt)
          = (c0 :: crest).map (fun c => ToolchainSpec.Ci c.sha alt) from rfl,
        List.getLast?_map]
      cases hgl : (c0 :: crest).getLast? with
      | none => exact absurd (List.getLast?_eq_none_iff.mp hgl) (by simp)
      | some c => rfl
    have hval : ci_validate_endpoints probe
        (ToolchainSpec.Ci c0.sha alt
          :: crest.map (fun c => ToolchainSpec.Ci c.sha alt))
        = Except.error (BisectErr.ciEndDoesNotReproduce
            (ToolchainSpec.Ci ((c0 :: crest).getLast?.getD c0).sha alt)) := by
      simp only [ci_validate_endpoints, hp0]
      rw [if_neg hr0, hmap, hpl]
      rfl
    unfold bisect_ci_in_commits
    rw [hkept]
    simp only [List.isEmpty_cons, Bool.false_eq_true, if_false, hlast,
      List.map_cons, hval]

/-- Witness for claim C6: a single retained commit whose toolchain probes
Yes makes the CI bisection fail naming the start-of-range toolchain. -/
theorem claim_C6_witness :
    bisect_ci_in_commits 100 (fun _ => Except.ok Satisfies.Yes) false "s0"
      "origin/master" [{ sha := "aaa", date := 50 }]
      = Except.error
          (BisectErr.ciStartIncludesRegression (ToolchainSpec.Ci "aaa" false)) :=
  claim_C6.2.1 100 (fun _ => Except.ok Satisfies.Yes) false "s0" "origin/master"
    [{ sha := "aaa", date := 50 }] { sha := "aaa", date := 50 } []
    (by decide) (by decide) rfl

/-- Claim C7: the nightly finder's stride is exactly the claimed schedule of
elapsed distance, and from a start of 2019-01-01 the iterator yields exactly
the claimed offsets. -/
theorem claim_C7 :
    (∀ s c, nightly_finder_next s c = c - spec_stride (s - c))
      ∧ nightly_iter_offsets (days_from_civil 2019 1 1) 12
          = [2, 4, 6, 8, 15, 22, 29, 36, 43, 50, 64, 78] := by
  constructor
  · intro s c
    unfold nightly_finder_next stride spec_stride
    by_cases h1 : s - c < 7
    · rw [if_pos h1, if_pos h1]
    · by_cases h2 : s - c < 49
      · rw [if_neg h1, if_neg h1, if_pos h2, if_pos (by omega)]
      · rw [if_neg h1, if_neg h1, if_neg h2, if_neg (by omega)]
  · decide

/-- Characterization of the per-bound fixup: a tag bound becomes the date
the accessor reports for it, every other bound is unchanged. -/
theorem fixup_one_spec (btd : String → Except Unit Int) (b b2 : Option Bound)
    (h : fixup_one btd b = Except.ok b2) :
    (bound_is_tag b = true →
        ∃ t d, b = some (Bound.Commit t) ∧ btd t = Except.ok d
          ∧ b2 = some (Bound.Date d))
      ∧ (bound_is_tag b = false → b2 = b) := by
  cases b with
  | none =>
      refine ⟨fun ht => absurd ht (by simp [bound_is_tag]), fun _ => ?_⟩
      simp only [fixup_one, Except.ok.injEq] at h
      exact h.symm
  | some bb =>
      cases bb with
      | Date d =>
          refine ⟨fun ht => absurd ht (by simp [bound_is_tag]), fun _ => ?_⟩
          simp only [fixup_one, Except.ok.injEq] at h
          exact h.symm
      | Commit t =>
          by_cases htag : bound_is_tag (some (Bound.Commit t)) = true
          · simp only [fixup_one, if_pos htag] at h
            refine ⟨fun _ => ?_, fun hf => ?_⟩
            · cases hbtd : btd t with
              | ok d =>
                  rw [hbtd] at h
                  refine ⟨t, d, rfl, hbtd, ?_⟩
                  simp only [Except.map, Except.ok.injEq] at h
                  exact h.symm
              | error u =>
                  rw [hbtd] at h
                  simp only [Except.map] at h
                  exact Except.noConfusion h
            · rw [hf] at htag
              exact Bool.noConfusion htag
          · simp only [fixup_one, if_neg htag, Except.ok.injEq] at h
            exact ⟨fun htt => absurd htt htag, fun _ => h.symm⟩

/-- Claim C8: if either bound is a pure commit the resolver leaves both
bounds completely unchanged; if both bounds are date-like, a successful
fixup rewrites exactly the tag bounds to their authored dates and leaves
the others untouched. -/
theorem claim_C8 (btd : String → Except Unit Int) (start? end? : Option Bound) :
    ((bound_is_datelike start? = false ∨ bound_is_datelike end? = false) →
        fixup_bounds btd start? end? = Except.ok (start?, end?))
      ∧ (bound_is_datelike start? = true → bound_is_datelike end? = true →
          ∀ s2 e2, fixup_bounds btd start? end? = Except.ok (s2, e2) →
            ((bound_is_tag start? = true →
                ∃ t d, start? = some (Bound.Commit t) ∧ btd t = Except.ok d
                  ∧ s2 = some (Bound.Date d))
              ∧ (bound_is_tag start? = false → s2 = start?))
            ∧ ((bound_is_tag end? = true →
                ∃ t d, end? = some (Bound.Commit t) ∧ btd t = Except.ok d
                  ∧ e2 = some (Bound.Date d))
              ∧ (bound_is_tag end? = false → e2 = end?))) := by
  constructor
  · intro h
    unfold fixup_bounds
    rcases h with h | h <;> rw [h] <;> simp
  · intro hs he s2 e2 hfix
    unfold fixup_bounds at hfix
    rw [hs, he] at hfix
    simp only [Bool.and_self, if_true] at hfix
    cases h1 : fixup_one btd start? with
    | error u =>
        rw [h1] at hfix
        exact Except.noConfusion hfix
    | ok s2' =>
        rw [h1] at hfix
        cases h2 : fixup_one btd end? with
        | error u =>
            rw [h2] at hfix
            exact Except.noConfusion hfix
        | ok e2' =>
            rw [h2] at hfix
            simp only [Except.ok.injEq, Prod.mk.injEq] at hfix
            obtain ⟨hs2, he2⟩ := hfix
            subst hs2
            subst he2
            exact ⟨fixup_one_spec btd start? s2' h1, fixup_one_spec btd end? e2' h2⟩

/-- Witness for claim C8: a pure commit start bound disables the upgrade and
both bounds come back unchanged. -/
theorem claim_C8_witness :
    fixup_bounds (fun _ => Except.error ()) (some (Bound.Commit "abcdef"))
      (some (Bound.Date 10))
      = Except.ok (some (Bound.Commit "abcdef"), some (Bound.Date 10)) :=
  (claim_C8 (fun _ => Except.error ()) (some (Bound.Commit "abcdef"))
      (some (Bound.Date 10))).1 (Or.inl (by decide))

/-- Claim C9: with by_commit requested and exactly one bound supplied as a
date, Config::from_args reaches the unreachable!() branch (a panic, not an
error), although both such bound pairs pass check_bounds for every current
date. -/
theorem claim_C9 (conv : Bound → Except Unit Bound) (d current : Int) :
    from_args_bounds conv (some (Bound.Date d)) none true = FAOutcome.panicked
      ∧ from_args_bounds conv none (some (Bound.Date d)) true = FAOutcome.panicked
      ∧ check_bounds current (some (Bound.Date d)) none = true
      ∧ check_bounds current none (some (Bound.Date d)) = true :=
  ⟨rfl, rfl, rfl, rfl⟩

/-- Claim C10: Bound parsing is total — from_str always returns Ok, a Date
when the string date-parses and otherwise a Commit holding the string
verbatim. -/
theorem claim_C10 (s : String) :
    (∃ b, Bound.from_str s = Except.ok b)
      ∧ (∀ d, parse_to_utc_date s = Except.ok d →
          Bound.from_str s = Except.ok (Bound.Date d))
      ∧ (∀ u, parse_to_utc_date s = Except.error u →
          Bound.from_str s = Except.ok (Bound.Commit s)) := by
  cases h : parse_to_utc_date s with
  | ok d0 =>
      have hb : Bound.from_str s = Except.ok (Bound.Date d0) := by
        unfold Bound.from_str
        rw [h]
        rfl
      refine ⟨⟨_, hb⟩, ?_, ?_⟩
      · intro d hd
        cases hd
        exact hb
      · intro u hu
        exact Except.noConfusion hu
  | error u0 =>
      have hb : Bound.from_str s = Except.ok (Bound.Commit s) := by
        unfold Bound.from_str
        rw [h]
        rfl
      refine ⟨⟨_, hb⟩, ?_, ?_⟩
      · intro d hd
        exact Except.noConfusion hd
      · intro u _
        exact hb

/-- Witness for claim C10 on a valid date string and on a non-date string. -/
theorem claim_C10_witness :
    Bound.from_str "2020-01-01" = Except.ok (Bound.Date (days_from_civil 2020 1 1))
      ∧ Bound.from_str "not-a-date" = Except.ok (Bound.Commit "not-a-date") :=
  ⟨(claim_C10 "2020-01-01").2.1 (days_from_civil 2020 1 1) (by decide),
    (claim_C10 "not-a-date").2.2 () (by decide)⟩
